import Mathlib

/-!
# Verification of the room-scoped chat fan-out core (`chat/consumers.py`)

A shallow embedding of the `ChatConsumer` WebSocket consumer and its storage
model (`chat/models.py`), together with theorems checking the specification's
claims about it.

Modelling conventions:
* The durable store is a `List Message` (one entry per row of the `Message`
  table); `Message.objects.get(id=...)` is `dbGet`, and setting `.status`
  followed by `.save()` is `dbSet`.
* Every observable side effect of a handler is recorded in an `Action` trace,
  in program order: `Action.save`/`Action.create` are durable writes,
  `Action.group_send` is a channel-layer broadcast to the room group,
  `Action.send` is a frame written to this connection's own socket,
  `Action.group_add`/`Action.group_discard` are registry (de)registration, and
  `Action.close` closes the socket with a code.  `logger.*` calls are pure
  logging and are not modelled as actions.
* Message statuses are raw strings, exactly as in the Django `CharField`
  (the code never validates them against `STATUS_CHOICES`).
* `AnonymousUser` is modelled as `none : Option User`.
* Python dict `.get` on inbound JSON frames is modelled with `Option` fields
  and `Option.getD`; the Python truthiness test `if message_id:` on a numeric
  id is modelled as `mid ≠ 0`.
-/

namespace Chat

/-- A row of the `Message` table (`chat/models.py`, class `Message`), with the
fields the consumer reads: primary key, room FK, sender FK (id plus the
`sender.username` the consumer serialises), content, timestamp and status.
Timestamps are abstracted to `Nat`. -/
structure Message where
  id : Nat
  room : Nat
  sender : Nat
  senderName : String
  content : String
  timestamp : Nat
  status : String
deriving DecidableEq, Repr

/-- An authenticated user as the consumer sees it: `self.user.id` and
`self.user.username`. -/
structure User where
  id : Nat
  username : String
deriving DecidableEq, Repr

/-- A row of the `ChatRoom` table with its member ids (the `members`
many-to-many relation through `Membership`). -/
structure ChatRoom where
  id : Nat
  members : List Nat
deriving DecidableEq, Repr

/-- A channel-layer event dict as passed to `group_send`, one constructor per
`type` key used by `ChatConsumer` (`chat_message`, `user_status`,
`typing_status`, `message_status`).  Fields mirror the dict keys; `Option`
marks keys that some producers omit (read back with `.get`). -/
inductive Event where
  | chat_message (message_id : Option Nat) (message : String) (user : String)
      (message_type : String) (status : Option String)
  | user_status (user : String) (status : String)
  | typing_status (user : String) (is_typing : Bool)
  | message_status (message_id : Nat) (status : String) (user : String)
deriving DecidableEq, Repr

/-- A JSON frame written to this connection's own WebSocket with `self.send`,
one constructor per outbound `type` value (`chat.message`, `user.status`,
`typing.status`, `message.status`, `error`). -/
inductive OutFrame where
  | chatMessage (message_id : Option Nat) (message : String) (user : String)
      (message_type : String) (status : Option String)
  | userStatus (user : String) (status : String)
  | typingStatus (user : String) (is_typing : Bool)
  | messageStatus (message_id : Nat) (status : String) (user : String)
  | error (message : String)
deriving DecidableEq, Repr

/-- One observable side effect of a consumer handler, recorded in program
order. -/
inductive Action where
  | save (message_id : Nat) (status : String)
  | create (message_id : Nat) (content : String) (user : String) (status : String)
  | group_send (e : Event)
  | group_add
  | group_discard
  | accept
  | close (code : Nat)
  | send (f : OutFrame)
deriving DecidableEq, Repr

/-- `Message.objects.get(id=mid)`: the first row whose id matches, or the
`DoesNotExist` case as `none`. -/
def dbGet (db : List Message) (mid : Nat) : Option Message :=
  db.find? (fun m => m.id == mid)

/-- `message.status = st; message.save()`: rewrite the status of the row(s)
with id `mid` (with unique primary keys, exactly the fetched row). -/
def dbSet (db : List Message) (mid : Nat) (st : String) : List Message :=
  db.map (fun m => if m.id == mid then { m with status := st } else m)

/-- An inbound client JSON frame as `receive` reads it: every field accessed
with `text_data_json.get(...)`, absent keys as `none`. -/
structure InFrame where
  type? : Option String
  status? : Option String
  is_typing? : Option Bool
  message_id? : Option Nat
  message? : Option String
deriving DecidableEq, Repr

/-- `ChatConsumer.update_message_status(message_id, status)` (consumers.py
lines 36-59): fetch the message; on success overwrite its status, save, and
broadcast a `message_status` event to the room group; on `DoesNotExist` (or
any error) only log — the store is untouched and nothing is broadcast or sent
to the caller.  Returns the new store and the action trace. -/
def update_message_status (user : String) (db : List Message) (mid : Nat)
    (st : String) : List Message × List Action :=
  match dbGet db mid with
  | some _ =>
      (dbSet db mid st,
        [Action.save mid st,
         Action.group_send (Event.message_status mid st user)])
  | none => (db, [])

/-- `ChatConsumer.update_user_status(status)` (lines 12-22): broadcast a
`user_status` event to the room group. -/
def update_user_status (user : String) (status : String) : List Action :=
  [Action.group_send (Event.user_status user status)]

/-- `ChatConsumer.update_typing_status(is_typing)` (lines 24-34): broadcast a
`typing_status` event to the room group. -/
def update_typing_status (user : String) (is_typing : Bool) : List Action :=
  [Action.group_send (Event.typing_status user is_typing)]

/-- `ChatConsumer.receive(text_data)` (lines 176-239) on an already-parsed
frame.  `message_type = get('type', 'message')`; `status` frames broadcast
only when the value is one of online/offline/away; `typing` frames broadcast
`get('is_typing', False)`; `read_receipt` frames drive a `seen` update when
`message_id` is truthy; anything else falls through to the new-message path:
clear typing, create the message with status `'sending'`, broadcast a
`chat_message` event carrying status `'sent'`, then run
`update_message_status(id, 'sent')`.  `user`/`senderId` are
`self.user.username`/`self.user.id`, `roomId` is `self.room.id`, `newId` is
the fresh primary key `Message.objects.create` assigns, `now` the creation
timestamp. -/
def receive (user : String) (senderId : Nat) (roomId : Nat)
    (db : List Message) (newId : Nat) (now : Nat) (f : InFrame) :
    List Message × List Action :=
  let message_type := f.type?.getD "message"
  if message_type = "status" then
    match f.status? with
    | some s =>
        if s = "online" ∨ s = "offline" ∨ s = "away" then
          (db, update_user_status user s)
        else (db, [])
    | none => (db, [])
  else if message_type = "typing" then
    (db, update_typing_status user (f.is_typing?.getD false))
  else if message_type = "read_receipt" then
    match f.message_id? with
    | some mid =>
        if mid = 0 then (db, [])
        else update_message_status user db mid "seen"
    | none => (db, [])
  else
    let content := f.message?.getD ""
    let m : Message :=
      { id := newId, room := roomId, sender := senderId, senderName := user,
        content := content, timestamp := now, status := "sending" }
    let db1 := db ++ [m]
    let r := update_message_status user db1 newId "sent"
    (r.1,
      update_typing_status user false
        ++ [Action.create newId content user "sending",
            Action.group_send
              (Event.chat_message (some newId) content user "message"
                (some "sent"))]
        ++ r.2)

/-- The `chat.message` frame `connect` writes for one historical message
(lines 110-118). -/
def histFrame (m : Message) : OutFrame :=
  OutFrame.chatMessage (some m.id) m.content m.senderName "message"
    (some m.status)

/-- The guard of the history-replay delivery update (line 120):
`message.sender != self.user and message.status == 'sent'`. -/
def replayCond (uid : Nat) (m : Message) : Bool :=
  m.sender != uid && m.status == "sent"

/-- The history-replay loop of `connect` (lines 109-121): for each snapshot
message, send its `chat.message` frame to this connection, and when
`replayCond` holds drive `update_message_status(id, 'delivered')` against the
evolving store.  Loop conditions and frames read the snapshot, exactly as the
Python loop iterates the pre-fetched list. -/
def replay (u : User) (db : List Message) : List Message → List Message × List Action
  | [] => (db, [])
  | m :: rest =>
      let step :=
        if replayCond u.id m then
          update_message_status u.username db m.id "delivered"
        else (db, [])
      let tail := replay u step.1 rest
      (tail.1, Action.send (histFrame m) :: (step.2 ++ tail.2))

/-- `Message.objects.filter(room=self.room)`: the room's rows. -/
def roomMsgs (db : List Message) (rid : Nat) : List Message :=
  db.filter (fun m => m.room == rid)

/-- `.order_by('-timestamp')`: most-recent-first. -/
def recentOrder : Message → Message → Prop :=
  fun a b => b.timestamp ≤ a.timestamp

instance : DecidableRel recentOrder :=
  fun a b => Nat.decLe b.timestamp a.timestamp

instance : IsTotal Message recentOrder :=
  ⟨fun a b => (Nat.le_total b.timestamp a.timestamp).elim Or.inl Or.inr⟩

instance : IsTrans Message recentOrder :=
  ⟨fun _ _ _ hab hbc => Nat.le_trans hbc hab⟩

/-- `Message.objects.filter(room=...).order_by('-timestamp')[:50]` followed by
`reversed(...)` (lines 103-109): the most recent at most 50 room messages,
oldest first. -/
def histWindow (db : List Message) (rid : Nat) : List Message :=
  (((roomMsgs db rid).insertionSort recentOrder).take 50).reverse

/-- `ChatConsumer.connect` (lines 61-142).  Close codes: 4001 unauthenticated,
4004 room does not exist, 4002 not a member.  On success: join the group,
accept, replay history, broadcast the join `chat_message` and the `online`
`user_status`.  The surrounding `try/except` (close 4000) is unreachable for
the modelled operations and is omitted. -/
def connect (user? : Option User) (rooms : List ChatRoom)
    (db : List Message) (roomId : Nat) : List Message × List Action :=
  match user? with
  | none => (db, [Action.close 4001])
  | some u =>
      match rooms.find? (fun r => r.id == roomId) with
      | none => (db, [Action.close 4004])
      | some room =>
          if room.members.contains u.id then
            let rep := replay u db (histWindow db roomId)
            (rep.1,
              [Action.group_add, Action.accept]
                ++ rep.2
                ++ [Action.group_send
                      (Event.chat_message none
                        (u.username ++ " joined the chat") u.username "join"
                        none),
                    Action.group_send (Event.user_status u.username "online")])
          else (db, [Action.close 4002])

/-- `ChatConsumer.disconnect` (lines 144-174).  `hasState` is
`hasattr(self, 'room_group_name') and hasattr(self, 'user')`; nothing in the
method ever clears those attributes. -/
def disconnect (hasState : Bool) (user : String) : List Action :=
  if hasState then
    update_user_status user "offline"
      ++ update_typing_status user false
      ++ [Action.group_send
            (Event.chat_message none (user ++ " left the chat") user "leave"
              none),
          Action.group_discard]
  else []

/-- `ChatConsumer.chat_message(event)` (lines 242-267): forward the event to
this socket as a `chat.message` frame; then, when it is a real message from
another user carrying status `'sent'`, drive `update_message_status(id,
'delivered')` (with a `None` id the inner fetch raises and is swallowed,
leaving no trace).  Handlers for other event types never receive
non-`chat_message` events; that case is inert. -/
def chat_message (selfUser : String) (db : List Message) (e : Event) :
    List Message × List Action :=
  match e with
  | Event.chat_message mid? msg u mtype st? =>
      let echo := Action.send (OutFrame.chatMessage mid? msg u mtype st?)
      if mtype = "message" ∧ u ≠ selfUser ∧ st? = some "sent" then
        match mid? with
        | some mid =>
            let r := update_message_status selfUser db mid "delivered"
            (r.1, echo :: r.2)
        | none => (db, [echo])
      else (db, [echo])
  | _ => (db, [])

/-- `get_user_from_token` (`chat/jwt_middleware.py` lines 11-23): a missing or
cryptographically invalid token (modelled as `none`) and an unknown `user_id`
claim both yield `AnonymousUser` (`none`); otherwise the matching user row. -/
def get_user_from_token (claim? : Option Nat) (users : List User) :
    Option User :=
  match claim? with
  | none => none
  | some uid => users.find? (fun u => u.id == uid)

/-- The rank of a status in the delivery order
sending < sent < delivered < seen. -/
def statusRank : String → Nat
  | "sent" => 1
  | "delivered" => 2
  | "seen" => 3
  | _ => 0

/-- Project the frames sent to this connection's own socket out of a trace. -/
def sendOf : Action → Option OutFrame
  | Action.send f => some f
  | _ => none

/-- Project the durable status writes `(id, status)` out of a trace. -/
def saveOf : Action → Option (Nat × String)
  | Action.save mid st => some (mid, st)
  | _ => none

/-- Count the `chat_message` broadcasts with a given `message_type`. -/
def countType (mt : String) (tr : List Action) : Nat :=
  tr.countP (fun a =>
    match a with
    | Action.group_send (Event.chat_message _ _ _ t _) => t == mt
    | _ => false)

/-- Count the registry deregistrations in a trace. -/
def countDiscard (tr : List Action) : Nat :=
  tr.countP (fun a => a == Action.group_discard)

/-- Count the durable writes in a trace (`save` and `create`). -/
def countWrites (tr : List Action) : Nat :=
  tr.countP (fun a =>
    match a with
    | Action.save _ _ => true
    | Action.create _ _ _ _ => true
    | _ => false)

/-- Count the room-group broadcasts in a trace. -/
def countBroadcasts (tr : List Action) : Nat :=
  tr.countP (fun a =>
    match a with
    | Action.group_send _ => true
    | _ => false)

/-- Index of the first durable write of `(mid, st)` in a trace. -/
def saveIdx (tr : List Action) (mid : Nat) (st : String) : Option Nat :=
  tr.findIdx? (fun a => a == Action.save mid st)

/-- Index of the first room-group broadcast of a real message event for `mid`
carrying status `st`. -/
def echoIdx (tr : List Action) (mid : Nat) (st : String) : Option Nat :=
  tr.findIdx? (fun a =>
    match a with
    | Action.group_send (Event.chat_message (some i) _ _ t s) =>
        i == mid && t == "message" && s == some st
    | _ => false)

/-! ## Store lemmas -/

theorem dbGet_dbSet_self (db : List Message) (mid : Nat) (st : String) :
    dbGet (dbSet db mid st) mid
      = (dbGet db mid).map (fun m => { m with status := st }) := by
  induction db with
  | nil => rfl
  | cons h t ih =>
      by_cases hid : h.id = mid
      · have h1 : dbGet (dbSet (h :: t) mid st) mid
            = some { h with status := st } := by
          simp [dbGet, dbSet, List.find?_cons, hid]
        have h2 : dbGet (h :: t) mid = some h := by
          simp [dbGet, List.find?_cons, hid]
        rw [h1, h2]; rfl
      · have h1 : dbGet (dbSet (h :: t) mid st) mid
            = dbGet (dbSet t mid st) mid := by
          simp [dbGet, dbSet, List.find?_cons, hid]
        have h2 : dbGet (h :: t) mid = dbGet t mid := by
          simp [dbGet, List.find?_cons, hid]
        rw [h1, h2, ih]

theorem dbSet_map_id (db : List Message) (mid : Nat) (st : String) :
    (dbSet db mid st).map Message.id = db.map Message.id := by
  unfold dbSet
  rw [List.map_map]
  apply List.map_congr_left
  intro a _
  by_cases ha : a.id = mid <;> simp [ha]

theorem dbGet_isSome (db : List Message) (mid : Nat)
    (h : mid ∈ db.map Message.id) : ∃ m, dbGet db mid = some m := by
  induction db with
  | nil => simp at h
  | cons a t ih =>
      by_cases ha : (a.id == mid)
      · exact ⟨a, by simp [dbGet, List.find?_cons, ha]⟩
      · have hmem : mid ∈ t.map Message.id := by
          simp only [List.map_cons, List.mem_cons] at h
          rcases h with h | h
          · exact absurd (by simp [h]) ha
          · exact h
        rcases ih hmem with ⟨m, hm⟩
        refine ⟨m, ?_⟩
        simp only [dbGet, List.find?_cons, ha, cond_false]
        exact hm

theorem dbSet_eq_self (db : List Message) (mid : Nat) (st : String)
    (h : ∀ m ∈ db, m.id = mid → m.status = st) : dbSet db mid st = db := by
  unfold dbSet
  conv_rhs => rw [← List.map_id db]
  apply List.map_congr_left
  intro a ha
  by_cases hid : a.id = mid
  · have hst : a.status = st := h a ha hid
    subst hst
    split <;> rfl
  · simp [hid]

theorem dbGet_eq_none (db : List Message) (mid : Nat)
    (h : mid ∉ db.map Message.id) : dbGet db mid = none := by
  rw [dbGet, List.find?_eq_none]
  intro x hx hbeq
  exact h (List.mem_map.mpr ⟨x, hx, by simpa using hbeq⟩)

theorem dbGet_append (db l : List Message) (mid : Nat) :
    dbGet (db ++ l) mid = (dbGet db mid).or (dbGet l mid) := by
  simp [dbGet, List.find?_append]

theorem dbSet_append (db l : List Message) (mid : Nat) (st : String) :
    dbSet (db ++ l) mid st = dbSet db mid st ++ dbSet l mid st := by
  simp [dbSet, List.map_append]

theorem dbSet_not_mem (db : List Message) (mid : Nat) (st : String)
    (h : mid ∉ db.map Message.id) : dbSet db mid st = db := by
  unfold dbSet
  conv_rhs => rw [← List.map_id db]
  apply List.map_congr_left
  intro a ha
  have : a.id ≠ mid := fun he => h (List.mem_map.mpr ⟨a, ha, he⟩)
  simp [this]

/-- Through the new-message path of `receive`, the store gains exactly the
created row, already updated to `sent` (assuming the fresh primary key is not
already in use). -/
theorem receive_message_store (u : String) (sid rid : Nat) (db : List Message)
    (newId now : Nat) (f : InFrame)
    (hf : f.type?.getD "message" ∉ ["status", "typing", "read_receipt"])
    (hnew : newId ∉ db.map Message.id) :
    (receive u sid rid db newId now f).1
      = db ++ [⟨newId, rid, sid, u, f.message?.getD "", now, "sent"⟩] := by
  simp only [List.mem_cons, List.mem_singleton, not_or] at hf
  obtain ⟨h1, h2, h3, -⟩ := hf
  have hget : dbGet (db
        ++ [⟨newId, rid, sid, u, f.message?.getD "", now, "sending"⟩]) newId
      = some ⟨newId, rid, sid, u, f.message?.getD "", now, "sending"⟩ := by
    rw [dbGet_append, dbGet_eq_none db newId hnew]
    simp [dbGet]
  have hset : dbSet (db
        ++ [⟨newId, rid, sid, u, f.message?.getD "", now, "sending"⟩])
        newId "sent"
      = db ++ [⟨newId, rid, sid, u, f.message?.getD "", now, "sent"⟩] := by
    rw [dbSet_append, dbSet_not_mem db newId "sent" hnew]
    simp [dbSet]
  simp [receive, h1, h2, h3, update_message_status, hget, hset]

/-- Through the new-message path of `receive`, the action trace is always, in
program order: clear typing, create the row with status `sending`, broadcast
the `chat_message` event carrying status `sent`, durably write `sent`, then
broadcast the `message_status` event. -/
theorem receive_message_trace (u : String) (sid rid : Nat) (db : List Message)
    (newId now : Nat) (f : InFrame)
    (hf : f.type?.getD "message" ∉ ["status", "typing", "read_receipt"]) :
    (receive u sid rid db newId now f).2
      = [Action.group_send (Event.typing_status u false),
         Action.create newId (f.message?.getD "") u "sending",
         Action.group_send
           (Event.chat_message (some newId) (f.message?.getD "") u "message"
             (some "sent")),
         Action.save newId "sent",
         Action.group_send (Event.message_status newId "sent" u)] := by
  simp only [List.mem_cons, List.mem_singleton, not_or] at hf
  obtain ⟨h1, h2, h3, -⟩ := hf
  have hsome : (dbGet (db
        ++ [⟨newId, rid, sid, u, f.message?.getD "", now, "sending"⟩])
        newId).isSome := by
    rw [dbGet, List.find?_isSome]
    exact ⟨⟨newId, rid, sid, u, f.message?.getD "", now, "sending"⟩,
      by simp, by simp⟩
  obtain ⟨m', hm'⟩ := Option.isSome_iff_exists.mp hsome
  simp [receive, h1, h2, h3, update_message_status, update_typing_status, hm']

/-- The history-replay loop sends exactly one `chat.message` frame per
snapshot message to this connection, in snapshot order; the interleaved
status updates contribute no socket frames. -/
theorem replay_sends (u : User) (db : List Message) (msgs : List Message) :
    ((replay u db msgs).2).filterMap sendOf = msgs.map histFrame := by
  induction msgs generalizing db with
  | nil => rfl
  | cons m rest ih =>
      by_cases hc : replayCond u.id m = true
      · cases h : dbGet db m.id <;>
          simp [replay, hc, update_message_status, h, sendOf,
            List.filterMap_append, ih]
      · simp [replay, hc, sendOf, List.filterMap_append, ih]

/-- The history-replay loop performs exactly one durable `delivered` write per
snapshot message satisfying the replay guard, in snapshot order (provided
every snapshot id is present in the store, which holds for any snapshot drawn
from it). -/
theorem replay_saves (u : User) (db : List Message) (msgs : List Message)
    (h : ∀ m ∈ msgs, m.id ∈ db.map Message.id) :
    ((replay u db msgs).2).filterMap saveOf
      = (msgs.filter (replayCond u.id)).map (fun m => (m.id, "delivered")) := by
  induction msgs generalizing db with
  | nil => rfl
  | cons m rest ih =>
      have hm : m.id ∈ db.map Message.id := h m (List.mem_cons_self m rest)
      have hrest : ∀ x ∈ rest, x.id ∈ db.map Message.id :=
        fun x hx => h x (List.mem_cons_of_mem m hx)
      by_cases hc : replayCond u.id m = true
      · rcases dbGet_isSome db m.id hm with ⟨mm, hmm⟩
        have hrest' : ∀ x ∈ rest,
            x.id ∈ (dbSet db m.id "delivered").map Message.id := by
          rw [dbSet_map_id]; exact hrest
        simp [replay, hc, update_message_status, hmm, saveOf,
          List.filterMap_append, List.filter_cons, ih _ hrest']
      · simp [replay, hc, saveOf, List.filterMap_append, List.filter_cons,
          ih _ hrest]

/-- Every message in the replayed history window is a row of the store. -/
theorem histWindow_subset (db : List Message) (rid : Nat) :
    ∀ m ∈ histWindow db rid, m ∈ db := by
  intro m hm
  unfold histWindow at hm
  rw [List.mem_reverse] at hm
  have h1 : m ∈ (roomMsgs db rid).insertionSort recentOrder :=
    (List.take_sublist _ _).subset hm
  rw [List.mem_insertionSort] at h1
  exact List.mem_of_mem_filter h1

/-- The history window holds `min N 50` messages, where `N` is the number of
messages stored for the room. -/
theorem histWindow_length (db : List Message) (rid : Nat) :
    (histWindow db rid).length = min (roomMsgs db rid).length 50 := by
  unfold histWindow
  rw [List.length_reverse, List.length_take, List.length_insertionSort]
  exact Nat.min_comm _ _

/-- The history window is ordered oldest-first. -/
theorem histWindow_sorted (db : List Message) (rid : Nat) :
    List.Pairwise (fun a b : Message => a.timestamp ≤ b.timestamp)
      (histWindow db rid) := by
  unfold histWindow
  rw [List.pairwise_reverse]
  exact List.Pairwise.sublist (List.take_sublist _ _)
    (List.sorted_insertionSort recentOrder _)

/-- The history window consists of the most recent room messages: any stored
room message left out of the window is no newer than every window message. -/
theorem histWindow_recent (db : List Message) (rid : Nat) :
    ∀ x ∈ roomMsgs db rid, x ∉ histWindow db rid →
      ∀ m ∈ histWindow db rid, x.timestamp ≤ m.timestamp := by
  intro x hx hxn m hm
  have hsplit :
      ((roomMsgs db rid).insertionSort recentOrder).take 50
          ++ ((roomMsgs db rid).insertionSort recentOrder).drop 50
        = (roomMsgs db rid).insertionSort recentOrder :=
    List.take_append_drop _ _
  have hp : List.Pairwise recentOrder
      ((roomMsgs db rid).insertionSort recentOrder) :=
    List.sorted_insertionSort recentOrder _
  rw [← hsplit, List.pairwise_append] at hp
  obtain ⟨-, -, hcross⟩ := hp
  have hxs : x ∈ (roomMsgs db rid).insertionSort recentOrder := by
    rw [List.mem_insertionSort]; exact hx
  have hxt : x ∉ ((roomMsgs db rid).insertionSort recentOrder).take 50 := by
    intro hc
    exact hxn (by unfold histWindow; rw [List.mem_reverse]; exact hc)
  have hxd : x ∈ ((roomMsgs db rid).insertionSort recentOrder).drop 50 := by
    have hx2 : x ∈ ((roomMsgs db rid).insertionSort recentOrder).take 50
        ++ ((roomMsgs db rid).insertionSort recentOrder).drop 50 := by
      rw [hsplit]; exact hxs
    rcases List.mem_append.mp hx2 with h | h
    · exact absurd h hxt
    · exact h
  have hmt : m ∈ ((roomMsgs db rid).insertionSort recentOrder).take 50 := by
    unfold histWindow at hm; rw [List.mem_reverse] at hm; exact hm
  exact hcross m hmt x hxd

/-- With distinct primary keys in the store, the ids of the history window
are distinct — each historical message appears in it exactly once. -/
theorem histWindow_nodup (db : List Message) (rid : Nat)
    (h : (db.map Message.id).Nodup) :
    ((histWindow db rid).map Message.id).Nodup := by
  unfold histWindow
  rw [List.map_reverse, List.nodup_reverse]
  have h1 : ((roomMsgs db rid).map Message.id).Nodup :=
    h.sublist (List.Sublist.map _ (List.filter_sublist _))
  have h2 : (((roomMsgs db rid).insertionSort recentOrder).map
      Message.id).Nodup :=
    ((List.perm_insertionSort recentOrder (roomMsgs db rid)).map
      Message.id).nodup_iff.mpr h1
  exact h2.sublist (List.Sublist.map _ (List.take_sublist _ _))

/-- On a successful connect the full behaviour is: join the group, accept,
replay the history window, then broadcast the join event and the `online`
presence event. -/
theorem connect_success (u : User) (rooms : List ChatRoom)
    (db : List Message) (rid : Nat) (room : ChatRoom)
    (hr : rooms.find? (fun r => r.id == rid) = some room)
    (hm : u.id ∈ room.members) :
    connect (some u) rooms db rid
      = ((replay u db (histWindow db rid)).1,
         [Action.group_add, Action.accept]
           ++ (replay u db (histWindow db rid)).2
           ++ [Action.group_send
                 (Event.chat_message none (u.username ++ " joined the chat")
                   u.username "join" none),
               Action.group_send (Event.user_status u.username "online")]) := by
  simp [connect, hr, hm]

/-! ## Claim theorems -/

/-- **C1 (counterexample).**  The claim says the stored status is
non-decreasing under any sequence of requests to `update_message_status`, and
in particular that a `seen` message never moves back to `delivered`.  The code
has no such guard: starting from a single message whose stored status is
`seen`, one `delivered` request leaves the store holding `delivered`, whose
rank is strictly below `seen`'s. -/
theorem C1_counterexample :
    (update_message_status "alice" [⟨1, 1, 2, "bob", "hi", 0, "seen"⟩]
        1 "delivered").1 = [⟨1, 1, 2, "bob", "hi", 0, "delivered"⟩]
    ∧ statusRank "delivered" < statusRank "seen" := by
  exact ⟨rfl, by decide⟩

/-- **C1 (amended).**  `update_message_status` performs no monotonicity check:
whenever the message id exists in the store, the stored status after the call
is exactly the requested status, whatever the previous status was — so a
request can move a `seen` message back to `delivered` or any earlier
status. -/
theorem C1_status_overwrites (u : String) (db : List Message) (mid : Nat)
    (st : String) (m : Message) (h : dbGet db mid = some m) :
    dbGet ((update_message_status u db mid st).1) mid
      = some { m with status := st } := by
  simp [update_message_status, h, dbGet_dbSet_self]

/-- Witness for `C1_status_overwrites` at a concrete store. -/
theorem C1_status_overwrites_witness :
    dbGet ((update_message_status "alice"
        [⟨1, 1, 2, "bob", "hi", 0, "seen"⟩] 1 "delivered").1) 1
      = some ⟨1, 1, 2, "bob", "hi", 0, "delivered"⟩ :=
  C1_status_overwrites "alice" [⟨1, 1, 2, "bob", "hi", 0, "seen"⟩] 1
    "delivered" ⟨1, 1, 2, "bob", "hi", 0, "seen"⟩ rfl

/-- **C3 (confirmed).**  On a successful connect (room found, user a member)
to a room holding `N` historical messages, with distinct primary keys:
the frames sent to the joining connection itself are exactly one
`chat.message` frame per history-window message; the window holds
`min N 50` messages; it is ordered oldest-first; it consists of the most
recent room messages (everything excluded is no newer than everything
included); the durable writes driven by the connect are exactly one
`sent → delivered` transition per window message authored by another user
with status `sent`; and each window message appears exactly once.  (History
frames go out as `Action.send`, i.e. to this connection only; the broadcasts
in the trace are the join/presence events and the `message_status` events of
the driven transitions.) -/
theorem C3_history_replay (u : User) (rooms : List ChatRoom)
    (db : List Message) (rid : Nat) (room : ChatRoom)
    (hr : rooms.find? (fun r => r.id == rid) = some room)
    (hm : u.id ∈ room.members)
    (hnd : (db.map Message.id).Nodup) :
    ((connect (some u) rooms db rid).2).filterMap sendOf
        = (histWindow db rid).map histFrame
    ∧ (histWindow db rid).length = min (roomMsgs db rid).length 50
    ∧ List.Pairwise (fun a b : Message => a.timestamp ≤ b.timestamp)
        (histWindow db rid)
    ∧ (∀ x ∈ roomMsgs db rid, x ∉ histWindow db rid →
        ∀ m ∈ histWindow db rid, x.timestamp ≤ m.timestamp)
    ∧ ((connect (some u) rooms db rid).2).filterMap saveOf
        = ((histWindow db rid).filter (replayCond u.id)).map
            (fun m => (m.id, "delivered"))
    ∧ ((histWindow db rid).map Message.id).Nodup := by
  have hids : ∀ m ∈ histWindow db rid, m.id ∈ db.map Message.id :=
    fun m hmem => List.mem_map.mpr ⟨m, histWindow_subset db rid m hmem, rfl⟩
  refine ⟨?_, histWindow_length db rid, histWindow_sorted db rid,
    histWindow_recent db rid, ?_, histWindow_nodup db rid hnd⟩
  · rw [connect_success u rooms db rid room hr hm]
    simp [List.filterMap_append, sendOf, replay_sends]
  · rw [connect_success u rooms db rid room hr hm]
    simp [List.filterMap_append, saveOf,
      replay_saves u db (histWindow db rid) hids]

/-- Witness for `C3_history_replay` on a four-message store: room 1 holds
messages 10, 11, 13 (message 12 belongs to another room); the window replays
them oldest-first as 13, 10, 11, and only message 10 (another sender, status
`sent`) gets a `delivered` write. -/
theorem C3_history_replay_witness :
    histWindow [⟨10, 1, 2, "bob", "a", 1, "sent"⟩,
        ⟨11, 1, 1, "alice", "b", 2, "sent"⟩,
        ⟨12, 2, 2, "bob", "c", 3, "sent"⟩,
        ⟨13, 1, 2, "bob", "d", 0, "seen"⟩] 1
      = [⟨13, 1, 2, "bob", "d", 0, "seen"⟩,
         ⟨10, 1, 2, "bob", "a", 1, "sent"⟩,
         ⟨11, 1, 1, "alice", "b", 2, "sent"⟩]
    ∧ ((connect (some ⟨1, "alice"⟩) [⟨1, [1, 2]⟩]
          [⟨10, 1, 2, "bob", "a", 1, "sent"⟩,
           ⟨11, 1, 1, "alice", "b", 2, "sent"⟩,
           ⟨12, 2, 2, "bob", "c", 3, "sent"⟩,
           ⟨13, 1, 2, "bob", "d", 0, "seen"⟩] 1).2).filterMap sendOf
        = (histWindow [⟨10, 1, 2, "bob", "a", 1, "sent"⟩,
            ⟨11, 1, 1, "alice", "b", 2, "sent"⟩,
            ⟨12, 2, 2, "bob", "c", 3, "sent"⟩,
            ⟨13, 1, 2, "bob", "d", 0, "seen"⟩] 1).map histFrame
    ∧ (histWindow [⟨10, 1, 2, "bob", "a", 1, "sent"⟩,
          ⟨11, 1, 1, "alice", "b", 2, "sent"⟩,
          ⟨12, 2, 2, "bob", "c", 3, "sent"⟩,
          ⟨13, 1, 2, "bob", "d", 0, "seen"⟩] 1).length
        = min (roomMsgs [⟨10, 1, 2, "bob", "a", 1, "sent"⟩,
            ⟨11, 1, 1, "alice", "b", 2, "sent"⟩,
            ⟨12, 2, 2, "bob", "c", 3, "sent"⟩,
            ⟨13, 1, 2, "bob", "d", 0, "seen"⟩] 1).length 50
    ∧ ((connect (some ⟨1, "alice"⟩) [⟨1, [1, 2]⟩]
          [⟨10, 1, 2, "bob", "a", 1, "sent"⟩,
           ⟨11, 1, 1, "alice", "b", 2, "sent"⟩,
           ⟨12, 2, 2, "bob", "c", 3, "sent"⟩,
           ⟨13, 1, 2, "bob", "d", 0, "seen"⟩] 1).2).filterMap saveOf
        = [(10, "delivered")] :=
  ⟨rfl,
   (C3_history_replay ⟨1, "alice"⟩ [⟨1, [1, 2]⟩]
      [⟨10, 1, 2, "bob", "a", 1, "sent"⟩, ⟨11, 1, 1, "alice", "b", 2, "sent"⟩,
       ⟨12, 2, 2, "bob", "c", 3, "sent"⟩, ⟨13, 1, 2, "bob", "d", 0, "seen"⟩] 1
      ⟨1, [1, 2]⟩ rfl (by decide) (by decide)).1,
   (C3_history_replay ⟨1, "alice"⟩ [⟨1, [1, 2]⟩]
      [⟨10, 1, 2, "bob", "a", 1, "sent"⟩, ⟨11, 1, 1, "alice", "b", 2, "sent"⟩,
       ⟨12, 2, 2, "bob", "c", 3, "sent"⟩, ⟨13, 1, 2, "bob", "d", 0, "seen"⟩] 1
      ⟨1, [1, 2]⟩ rfl (by decide) (by decide)).2.1,
   ((C3_history_replay ⟨1, "alice"⟩ [⟨1, [1, 2]⟩]
      [⟨10, 1, 2, "bob", "a", 1, "sent"⟩, ⟨11, 1, 1, "alice", "b", 2, "sent"⟩,
       ⟨12, 2, 2, "bob", "c", 3, "sent"⟩, ⟨13, 1, 2, "bob", "d", 0, "seen"⟩] 1
      ⟨1, [1, 2]⟩ rfl (by decide) (by decide)).2.2.2.2.1).trans rfl⟩

/-- **C4 (counterexample).**  The claim says a second `seen` request for an
already-`seen` message produces no durable write beyond the first and at most
one broadcast across the two requests.  In the code every `read_receipt`
re-fetches, re-saves and re-broadcasts: two `seen` requests on one message
produce two durable writes and two broadcasts. -/
theorem C4_counterexample :
    countWrites ((receive "alice" 1 1
          [⟨1, 1, 2, "bob", "hi", 0, "delivered"⟩] 9 9
          ⟨some "read_receipt", none, none, some 1, none⟩).2
        ++ (receive "alice" 1 1
          (receive "alice" 1 1 [⟨1, 1, 2, "bob", "hi", 0, "delivered"⟩] 9 9
            ⟨some "read_receipt", none, none, some 1, none⟩).1 9 9
          ⟨some "read_receipt", none, none, some 1, none⟩).2) = 2
    ∧ countBroadcasts ((receive "alice" 1 1
          [⟨1, 1, 2, "bob", "hi", 0, "delivered"⟩] 9 9
          ⟨some "read_receipt", none, none, some 1, none⟩).2
        ++ (receive "alice" 1 1
          (receive "alice" 1 1 [⟨1, 1, 2, "bob", "hi", 0, "delivered"⟩] 9 9
            ⟨some "read_receipt", none, none, some 1, none⟩).1 9 9
          ⟨some "read_receipt", none, none, some 1, none⟩).2) = 2 := by
  constructor <;> rfl

/-- **C4 (amended).**  A `seen` request on an already-`seen` message is
accepted, not an error, and leaves the store unchanged (idempotent in state);
but it is not a no-op in effects: every such request performs exactly one
durable write and one broadcast, so two requests produce two writes and two
broadcasts. -/
theorem C4_seen_rewrites (u : String) (sid rid : Nat) (db : List Message)
    (newId now mid : Nat) (hmid : mid ≠ 0)
    (hex : mid ∈ db.map Message.id)
    (hseen : ∀ m ∈ db, m.id = mid → m.status = "seen") :
    receive u sid rid db newId now
        ⟨some "read_receipt", none, none, some mid, none⟩
      = (db, [Action.save mid "seen",
              Action.group_send (Event.message_status mid "seen" u)]) := by
  rcases dbGet_isSome db mid hex with ⟨m, hm⟩
  simp [receive, hmid, update_message_status, hm, dbSet_eq_self db mid "seen" hseen]

/-- Witness for `C4_seen_rewrites` at a concrete store. -/
theorem C4_seen_rewrites_witness :
    receive "alice" 1 1 [⟨1, 1, 2, "bob", "hi", 0, "seen"⟩] 9 9
        ⟨some "read_receipt", none, none, some 1, none⟩
      = ([⟨1, 1, 2, "bob", "hi", 0, "seen"⟩],
         [Action.save 1 "seen",
          Action.group_send (Event.message_status 1 "seen" "alice")]) :=
  C4_seen_rewrites "alice" 1 1 [⟨1, 1, 2, "bob", "hi", 0, "seen"⟩] 9 9 1
    (by decide) (by decide) (by decide)

/-- **C5 (counterexample).**  The claim says invoking the teardown twice for
one connection produces exactly one leave broadcast and one deregistration.
`disconnect` never clears `room_group_name`/`user`, so a second invocation
repeats the whole cleanup: two leave broadcasts and two deregistrations. -/
theorem C5_counterexample :
    countType "leave" (disconnect true "u1" ++ disconnect true "u1") = 2
    ∧ countDiscard (disconnect true "u1" ++ disconnect true "u1") = 2 := by
  constructor <;> rfl

/-- **C5 (amended).**  The cleanup order is as claimed — presence-offline
broadcast, typing-false broadcast, leave broadcast, then deregistration — but
the teardown is not idempotent: invoking `disconnect` twice for the same
connection produces two leave broadcasts and two deregistrations. -/
theorem C5_disconnect_order (u : String) :
    disconnect true u
      = [Action.group_send (Event.user_status u "offline"),
         Action.group_send (Event.typing_status u false),
         Action.group_send
           (Event.chat_message none (u ++ " left the chat") u "leave" none),
         Action.group_discard]
    ∧ countType "leave" (disconnect true u ++ disconnect true u) = 2
    ∧ countDiscard (disconnect true u ++ disconnect true u) = 2 := by
  refine ⟨rfl, ?_, ?_⟩ <;>
    simp [disconnect, countType, countDiscard, update_user_status,
      update_typing_status, List.countP_append, List.countP_cons]

/-- **C6 (counterexample).**  The claim says the initiating caller observes a
recoverable failure when the message id is not found.  In the code the
`DoesNotExist` branch only logs: a `read_receipt` for an absent id produces an
empty trace — no durable write, no broadcast, and in particular no frame of
any kind (no error frame) sent back to the initiating connection. -/
theorem C6_counterexample :
    (receive "alice" 1 1 [] 9 9
        ⟨some "read_receipt", none, none, some 5, none⟩).2 = []
    ∧ ((receive "alice" 1 1 [] 9 9
        ⟨some "read_receipt", none, none, some 5, none⟩).2).filterMap sendOf
      = [] := by
  constructor <;> rfl

/-- **C6 (amended).**  If the message id of a status transition is not found
in the store, the transition does not occur and no status event is broadcast,
and other participants observe nothing — but the initiating caller does not
observe a recoverable failure either: the error is logged and swallowed, the
store is unchanged and the whole action trace is empty (no write, no
broadcast, no error frame to the caller). -/
theorem C6_not_found (u : String) (sid rid : Nat) (db : List Message)
    (newId now mid : Nat) (h : dbGet db mid = none) :
    receive u sid rid db newId now
        ⟨some "read_receipt", none, none, some mid, none⟩ = (db, []) := by
  by_cases h0 : mid = 0 <;> simp [receive, update_message_status, h, h0]

/-- Witness for `C6_not_found` on an empty store. -/
theorem C6_not_found_witness :
    receive "alice" 1 1 [] 9 9
        ⟨some "read_receipt", none, none, some 5, none⟩ = ([], []) :=
  C6_not_found "alice" 1 1 [] 9 9 5 rfl

/-- **C10 (confirmed).**  An inbound `status` frame whose status value is
absent or not one of online/offline/away is silently dropped: `receive`
leaves the store unchanged and produces an empty action trace — no
`user_status` broadcast, no error frame back to the sender, no close, no
state change of any kind. -/
theorem C10_invalid_status_dropped (u : String) (sid rid : Nat)
    (db : List Message) (newId now : Nat) (f : InFrame)
    (ht : f.type? = some "status")
    (hs : ∀ s, f.status? = some s → s ≠ "online" ∧ s ≠ "offline" ∧ s ≠ "away") :
    receive u sid rid db newId now f = (db, []) := by
  cases hst : f.status? with
  | none => simp [receive, ht, hst]
  | some s =>
      rcases hs s hst with ⟨h1, h2, h3⟩
      simp [receive, ht, hst, h1, h2, h3]

/-- **C2 (counterexample).**  The claim says every status transition —
including `sending → sent` on a newly received message — is durably written
before the corresponding status event is broadcast.  On the new-message path
the room-group broadcast of the `chat_message` event carrying status `sent`
sits at trace index 2, while the durable write of `sent` only happens at
index 3: a client can observe the `sent` event while the durable record still
reads `sending`. -/
theorem C2_counterexample :
    echoIdx ((receive "u1" 1 1 [] 7 0 ⟨none, none, none, none, some "hi"⟩).2)
        7 "sent" = some 2
    ∧ saveIdx ((receive "u1" 1 1 [] 7 0 ⟨none, none, none, none, some "hi"⟩).2)
        7 "sent" = some 3
    ∧ 2 < 3 := by
  refine ⟨rfl, rfl, by decide⟩

/-- **C2 (amended).**  Write-then-publish holds for the explicit transitions
driven through `update_message_status`: its trace is either empty or exactly
the durable write followed by the `message_status` broadcast.  It does not
hold for `sending → sent` on a new message: there the trace is clear-typing,
create(`sending`), broadcast of the `chat_message` event carrying `sent`,
and only then the durable write of `sent` followed by its `message_status`
broadcast. -/
theorem C2_write_then_publish (u : String) (db : List Message) (mid : Nat)
    (st : String) (sid rid : Nat) (db' : List Message) (newId now : Nat)
    (c : String) :
    ((update_message_status u db mid st).2 = []
      ∨ (update_message_status u db mid st).2
          = [Action.save mid st,
             Action.group_send (Event.message_status mid st u)])
    ∧ (receive u sid rid db' newId now ⟨none, none, none, none, some c⟩).2
        = [Action.group_send (Event.typing_status u false),
           Action.create newId c u "sending",
           Action.group_send
             (Event.chat_message (some newId) c u "message" (some "sent")),
           Action.save newId "sent",
           Action.group_send (Event.message_status newId "sent" u)] := by
  constructor
  · cases h : dbGet db mid
    · exact Or.inl (by simp [update_message_status, h])
    · exact Or.inr (by simp [update_message_status, h])
  · simpa using
      receive_message_trace u sid rid db' newId now
        ⟨none, none, none, none, some c⟩ (by simp)

/-- **C7 (confirmed).**  An unauthenticated connection closes with code 4001,
a connection to a nonexistent room with 4004, and a valid user who is not a
member with 4002; the codes are pairwise distinct, and none of these paths
ever accepts the connection (the trace contains no `accept`, so the session
never becomes active). -/
theorem C7_close_codes (rooms : List ChatRoom) (db : List Message)
    (rid : Nat) (u : User) :
    connect none rooms db rid = (db, [Action.close 4001])
    ∧ (rooms.find? (fun r => r.id == rid) = none →
        connect (some u) rooms db rid = (db, [Action.close 4004]))
    ∧ (∀ room, rooms.find? (fun r => r.id == rid) = some room →
        u.id ∉ room.members →
        connect (some u) rooms db rid = (db, [Action.close 4002]))
    ∧ ((4001 : Nat) ≠ 4002 ∧ (4001 : Nat) ≠ 4004 ∧ (4002 : Nat) ≠ 4004)
    ∧ Action.accept ∉ (connect none rooms db rid).2
    ∧ (rooms.find? (fun r => r.id == rid) = none →
        Action.accept ∉ (connect (some u) rooms db rid).2)
    ∧ (∀ room, rooms.find? (fun r => r.id == rid) = some room →
        u.id ∉ room.members →
        Action.accept ∉ (connect (some u) rooms db rid).2) := by
  refine ⟨rfl, ?_, ?_, by decide, by simp [connect], ?_, ?_⟩
  · intro h; simp [connect, h]
  · intro room hr hm; simp [connect, hr, hm]
  · intro h; simp [connect, h]
  · intro room hr hm; simp [connect, hr, hm]

/-- Witness for `C7_close_codes`, exercising all three rejection paths on
concrete rooms and users. -/
theorem C7_close_codes_witness :
    connect none [⟨1, [2]⟩] [] 1 = ([], [Action.close 4001])
    ∧ connect (some ⟨3, "carol"⟩) [⟨1, [2]⟩] [] 9 = ([], [Action.close 4004])
    ∧ connect (some ⟨3, "carol"⟩) [⟨1, [2]⟩] [] 1
        = ([], [Action.close 4002]) :=
  ⟨(C7_close_codes [⟨1, [2]⟩] [] 1 ⟨3, "carol"⟩).1,
   (C7_close_codes [⟨1, [2]⟩] [] 9 ⟨3, "carol"⟩).2.1 rfl,
   (C7_close_codes [⟨1, [2]⟩] [] 1 ⟨3, "carol"⟩).2.2.1 ⟨1, [2]⟩ rfl (by decide)⟩

/-- **C8 (confirmed).**  A new message is broadcast to the room group (which
includes the sender) as a `chat_message` event carrying status `sent`; and
when the sender's own connection handles that event it only echoes the
`chat.message` frame back — because `event['user']` equals its own username,
the `sent → delivered` branch is skipped, so the sender never drives a
delivered transition for its own message (no `save` in its trace). -/
theorem C8_sender_echo (u : String) (sid rid : Nat) (db db2 : List Message)
    (newId now : Nat) (c : String) :
    Action.group_send
        (Event.chat_message (some newId) c u "message" (some "sent"))
      ∈ (receive u sid rid db newId now ⟨none, none, none, none, some c⟩).2
    ∧ chat_message u db2
        (Event.chat_message (some newId) c u "message" (some "sent"))
      = (db2, [Action.send
          (OutFrame.chatMessage (some newId) c u "message" (some "sent"))]) := by
  constructor
  · rw [receive_message_trace u sid rid db newId now
      ⟨none, none, none, none, some c⟩ (by simp)]
    simp
  · simp [chat_message]

/-- **C9 (confirmed).**  Any inbound frame whose `type` field is absent or is
none of `status`/`typing`/`read_receipt` is treated as a new-message send:
the store gains exactly one message whose content is the frame's `message`
field (defaulting to `""` when absent), and the trace broadcasts it to the
room as a `chat_message` event, ending with the status updated to `sent`. -/
theorem C9_fallthrough (u : String) (sid rid : Nat) (db : List Message)
    (newId now : Nat) (f : InFrame)
    (hf : f.type?.getD "message" ∉ ["status", "typing", "read_receipt"])
    (hnew : newId ∉ db.map Message.id) :
    receive u sid rid db newId now f
      = (db ++ [⟨newId, rid, sid, u, f.message?.getD "", now, "sent"⟩],
         [Action.group_send (Event.typing_status u false),
          Action.create newId (f.message?.getD "") u "sending",
          Action.group_send
            (Event.chat_message (some newId) (f.message?.getD "") u "message"
              (some "sent")),
          Action.save newId "sent",
          Action.group_send (Event.message_status newId "sent" u)]) := by
  have h1 := receive_message_store u sid rid db newId now f hf hnew
  have h2 := receive_message_trace u sid rid db newId now f hf
  exact Prod.ext h1 h2

/-- Witness for `C9_fallthrough`: a frame with an unknown type and no
`message` field becomes an empty-content message. -/
theorem C9_fallthrough_witness :
    receive "alice" 1 1 [⟨1, 1, 2, "bob", "hi", 0, "seen"⟩] 2 5
        ⟨some "weird", none, none, none, none⟩
      = ([⟨1, 1, 2, "bob", "hi", 0, "seen"⟩, ⟨2, 1, 1, "alice", "", 5, "sent"⟩],
         [Action.group_send (Event.typing_status "alice" false),
          Action.create 2 "" "alice" "sending",
          Action.group_send
            (Event.chat_message (some 2) "" "alice" "message" (some "sent")),
          Action.save 2 "sent",
          Action.group_send (Event.message_status 2 "sent" "alice")]) :=
  C9_fallthrough "alice" 1 1 [⟨1, 1, 2, "bob", "hi", 0, "seen"⟩] 2 5
    ⟨some "weird", none, none, none, none⟩ (by decide) (by decide)

/-- Witness for `C10_invalid_status_dropped` on a `busy` status frame. -/
theorem C10_invalid_status_dropped_witness :
    receive "alice" 1 1 [⟨1, 1, 2, "bob", "hi", 0, "sent"⟩] 9 9
        ⟨some "status", some "busy", none, none, none⟩
      = ([⟨1, 1, 2, "bob", "hi", 0, "sent"⟩], []) :=
  C10_invalid_status_dropped "alice" 1 1 [⟨1, 1, 2, "bob", "hi", 0, "sent"⟩]
    9 9 ⟨some "status", some "busy", none, none, none⟩ rfl
    (by intro s hs; cases hs; exact ⟨by decide, by decide, by decide⟩)

end Chat
